import Mathlib

/-!
Verification of the learnGo example repository.

The repository is a catalog of small Go demonstration routines.  This file
gives a shallow embedding of the routines the specification's claims are
about, and proves (or refutes) each claim.

Conventions of the embedding:
* Go's `int` is 64-bit on the reference platform; it is modelled as `Int`
  together with an explicit two's-complement wrap `wrap64` applied where the
  Go specification defines wrap-around behaviour (truncated division of the
  most negative value by -1).
* Go's `float64` values appearing in `divideTwoNumbers` are modelled as exact
  rationals `ℚ`; every concrete value the program divides is exactly
  representable, and the routine's branch structure does not depend on
  rounding.
* A Go `error` result is modelled as `Option String` (`none` = `nil`).
* A Go runtime panic (process-terminating) is modelled as `Except.error`.
* Go arrays are value types; they are modelled as `List`s, and array
  assignment is modelled by the explicit copy function `assignCopy`.
-/

/-! ### Two's-complement 64-bit integer model -/

/-- Least value of Go's 64-bit `int`, that is `-2^63`. -/
def int64Min : Int := -9223372036854775808

/-- Greatest value of Go's 64-bit `int`, that is `2^63 - 1`. -/
def int64Max : Int := 9223372036854775807

/-- Membership in the value range of Go's 64-bit `int`. -/
def inInt64 (n : Int) : Prop := int64Min ≤ n ∧ n ≤ int64Max

instance (n : Int) : Decidable (inInt64 n) := by
  unfold inInt64; infer_instance

/-- Two's-complement wrap of an integer into the 64-bit range
(`18446744073709551616 = 2^64`, `9223372036854775808 = 2^63`). -/
def wrap64 (n : Int) : Int :=
  (n + 9223372036854775808) % 18446744073709551616 - 9223372036854775808

theorem wrap64_eq_self {n : Int} (h : inInt64 n) : wrap64 n = n := by
  rcases h with ⟨h1, h2⟩
  unfold int64Min at h1
  unfold int64Max at h2
  unfold wrap64
  omega

/-- Go's `/` on `int`: division truncated toward zero, with the wrap-around
the Go specification prescribes for the most negative value divided by -1. -/
def goIntDiv (a b : Int) : Int := wrap64 (a.tdiv b)

/-- Go's `%` on `int`: remainder with the sign of the dividend. -/
def goIntMod (a b : Int) : Int := wrap64 (a.tmod b)

/-- Absolute value of a truncated remainder: `tmod` pairs the `%` of the
absolute values with the dividend's sign, so taking `natAbs` recovers the
`Nat` remainder.  Proved by cases on the signs of both arguments. -/
theorem natAbs_tmod_eq (a b : Int) :
    (a.tmod b).natAbs = a.natAbs % b.natAbs := by
  cases a <;> cases b <;>
    simp only [Int.tmod, Int.natAbs_neg, Int.natAbs_ofNat] <;> rfl

/-! ### Package `functions` (src/functions/main.go) -/

namespace functions

/-- Embedding of `swapValues(a string, b string) (string, string)`:
returns its two arguments in swapped order. -/
def swapValues (a : String) (b : String) : String × String := (b, a)

/-- Embedding of `divideNumbers(a, b int) (quotient int, remainder int)`.
The Go body assigns the named results `quotient = a / b` and
`remainder = a % b` and ends in an empty `return`, which yields the
currently-assigned named bindings.  Go's integer division panics at run time
when the divisor is zero; the panic is modelled as `Except.error`. -/
def divideNumbers (a b : Int) : Except String (Int × Int) :=
  if b = 0 then Except.error "runtime error: integer divide by zero"
  else
    let quotient := goIntDiv a b
    let remainder := goIntMod a b
    Except.ok (quotient, remainder)

end functions

/-! ### Package `underscoreidentifier` (src/underScoreIdentifier) -/

namespace underscoreidentifier

/-- Embedding of `divideTwoNumbers(a, b float64) (float64, error)`: when the
divisor is zero it returns the zero value together with the error built by
`fmt.Errorf("division by zero")`, otherwise the quotient and a `nil` error.
The `float64` values are modelled as exact rationals. -/
def divideTwoNumbers (a b : ℚ) : ℚ × Option String :=
  if b = 0 then (0, some "division by zero")
  else (a / b, none)

/-- Embedding of the slice literal `numbers := []int{10, 20, 30, 40, 50}`
in `ignoreIndexInLoop`. -/
def numbers : List Int := [10, 20, 30, 40, 50]

/-- Embedding of the loop in `ignoreIndexInLoop`: starting from `sum := 0`,
the statement `for _, value := range numbers { sum += value }` folds the
values of the slice in order, ignoring the index. -/
def ignoreIndexInLoopSum : Int :=
  numbers.foldl (fun sum value => sum + value) 0

end underscoreidentifier

/-! ### Package `main` array demonstrations (src, arrays file) -/

namespace arrays

/-- Fresh Go array `var arr1 [n]int`: every element holds the numeric zero
value. -/
def goZeroIntArr (n : Nat) : List Int := List.replicate n 0

/-- Fresh Go array `var arr2 [n]string`: every element holds the empty
string. -/
def goZeroStrArr (n : Nat) : List String := List.replicate n ""

/-- Embedding of `arr3 := [6]int{1, 2, 3, 4, 5, 6}`. -/
def arr3 : List Int := [1, 2, 3, 4, 5, 6]

/-- Go array assignment `arr5 := arr3` copies the whole value; the copy is a
new, independent sequence with the same elements. -/
def assignCopy (src : List Int) : List Int := src

/-- Embedding of the value-semantics demonstration, generalised over the
source array, the mutated index and the stored value: execute
`cpy := src; cpy[i] = v` and return the final values of the pair
`(src, cpy)`. -/
def copyMutateDemo (src : List Int) (i : Nat) (v : Int) :
    List Int × List Int :=
  let cpy := assignCopy src
  let cpy := cpy.set i v
  (src, cpy)

end arrays

/-! ### Package `userinput` (src/userInput/main.go) -/

namespace userinput

/-- Integer value of a list of decimal digit characters, most significant
first. -/
def digitsToNat (ds : List Char) : Nat :=
  ds.foldl (fun n c => 10 * n + (c.toNat - '0'.toNat)) 0

/-- Model of the Go standard library call `fmt.Scanf("%d %s", &age, &city)`
on one line of input, following the documented semantics of `fmt.Scanf`:
operands are matched left to right against whitespace-separated input;
`%d` consumes an optional sign and a maximal run of digits, `%s` a maximal
run of non-space characters; scanning stops at the first operand that fails
to match (a newline in the input that has no counterpart in the format is
such a failure), and operands matched before the failure keep the values
already stored while the remaining targets keep their zero values.  The
result is the pair of final target values `(age, city)` together with the
number of operands successfully scanned (the `n` that `fmt.Scanf`
returns). -/
def scanfRun (line : String) : (Int × String) × Nat :=
  let cs := line.data.dropWhile (fun c => c = ' ')
  let signed : Int × List Char :=
    match cs with
    | '-' :: rest => (-1, rest)
    | '+' :: rest => (1, rest)
    | _ => (1, cs)
  let ds := signed.2.takeWhile Char.isDigit
  if ds.isEmpty then ((0, ""), 0)
  else
    let age : Int := signed.1 * digitsToNat ds
    let afterNum := signed.2.dropWhile Char.isDigit
    let tok := (afterNum.dropWhile (fun c => c = ' ')).takeWhile
      (fun c => c ≠ ' ')
    if tok.isEmpty then ((age, ""), 1)
    else ((age, String.mk tok), 2)

/-- Final values of the two targets of the formatted read: `age` starts at
the numeric zero value and `city` at the empty string. -/
def scanfTargets (line : String) : Int × String := (scanfRun line).1

/-- Number of operands `fmt.Scanf` reports as successfully scanned. -/
def scanfCount (line : String) : Nat := (scanfRun line).2

end userinput

/-! ## Claim theorems -/

/-- C1: assigning a fixed-size sequence to a second binding produces an
independent copy: after `cpy := src; cpy[i] = v` the source sequence still
holds its original value at every index, and in the demonstrated instance
the source `[1,2,3,4,5,6]` is unchanged while the copy reads
`[100,2,3,4,5,6]`. -/
theorem arrays.copy_value_semantics :
    (∀ (src : List Int) (i : Nat) (v : Int),
      (arrays.copyMutateDemo src i v).1 = src) ∧
    arrays.copyMutateDemo arrays.arr3 0 100
      = ([1, 2, 3, 4, 5, 6], [100, 2, 3, 4, 5, 6]) :=
  ⟨fun _ _ _ => rfl, rfl⟩

/-- C2: `divideTwoNumbers` on `(10, 2)` returns `5` with a nil fault; on
`(10, 0)` it signals a fault with a non-empty message together with numeric
result `0`, so a caller discarding the fault observes the zero result and a
caller inspecting it can read the fault text. -/
theorem underscoreidentifier.divide_demo_cases :
    underscoreidentifier.divideTwoNumbers 10 2 = (5, none) ∧
    underscoreidentifier.divideTwoNumbers 10 0
      = (0, some "division by zero") ∧
    "division by zero" ≠ "" ∧
    (underscoreidentifier.divideTwoNumbers 10 0).1 = 0 := by
  refine ⟨?_, ?_, by decide, ?_⟩ <;>
    norm_num [underscoreidentifier.divideTwoNumbers]

/-- C3 (counterexample): the integer routine `divideNumbers` is a division
routine of the catalog, yet on the divisor-zero input `(17, 0)` it does not
signal an inspectable fault alongside a zero-valued output — it reaches
Go's run-time panic for integer division by zero, a process-terminating
event, modelled as `Except.error`. -/
theorem functions.divideNumbers_zero_divisor_panics :
    functions.divideNumbers 17 0
      = Except.error "runtime error: integer divide by zero" ∧
    (functions.divideNumbers 17 0).isOk = false :=
  ⟨rfl, rfl⟩

/-- C3 (amended): `divideTwoNumbers` is the only routine with an explicit
fault path, and for every dividend it handles a zero divisor by signalling
the inspectable non-empty fault message alongside the zero-valued result
rather than terminating. -/
theorem underscoreidentifier.divideTwoNumbers_zero_divisor_signals :
    ∀ a : ℚ, underscoreidentifier.divideTwoNumbers a 0
      = (0, some "division by zero") ∧ "division by zero" ≠ "" := by
  intro a
  refine ⟨?_, by decide⟩
  simp [underscoreidentifier.divideTwoNumbers]

/-- C4: declared-but-unset fixed-size sequence elements hold the element
type's zero value: a fresh 5-element integer sequence reads `[0,0,0,0,0]`,
a fresh 3-element string sequence reads `["","",""]`, and in general every
in-range index of a fresh sequence reads `0` (numeric) or `""` (text). -/
theorem arrays.zero_value_elements :
    arrays.goZeroIntArr 5 = [0, 0, 0, 0, 0] ∧
    arrays.goZeroStrArr 3 = ["", "", ""] ∧
    (∀ n i, i < n → (arrays.goZeroIntArr n)[i]? = some 0) ∧
    (∀ n i, i < n → (arrays.goZeroStrArr n)[i]? = some "") := by
  refine ⟨rfl, rfl, ?_, ?_⟩ <;>
    · intro n i h
      simp [arrays.goZeroIntArr, arrays.goZeroStrArr,
        List.getElem?_replicate, h]

/-- C4 (witness): instantiation of the universally quantified parts at a
fresh 5-element integer sequence, index 2, and a fresh 3-element string
sequence, index 1. -/
theorem arrays.zero_value_elements_witness :
    (arrays.goZeroIntArr 5)[2]? = some 0 ∧
    (arrays.goZeroStrArr 3)[1]? = some "" :=
  ⟨arrays.zero_value_elements.2.2.1 5 2 (by decide),
   arrays.zero_value_elements.2.2.2 3 1 (by decide)⟩

/-- C5: the named-return routine `divideNumbers` on input `(17, 5)` returns
quotient `3` and remainder `2` through its named result bindings and the
empty return statement. -/
theorem functions.divideNumbers_17_5 :
    functions.divideNumbers 17 5 = Except.ok (3, 2) := rfl

/-- C6: `swapValues` on the pair `("Hello", "World")` returns
`("World", "Hello")`. -/
theorem functions.swapValues_hello_world :
    functions.swapValues "Hello" "World" = ("World", "Hello") := rfl

/-- C7: summing the values of `[10, 20, 30, 40, 50]` by the discarded-index
iteration of `ignoreIndexInLoop` yields `150`. -/
theorem underscoreidentifier.ignoreIndexInLoop_sum_150 :
    underscoreidentifier.ignoreIndexInLoopSum = 150 := rfl

/-- C8 (counterexample): the input line consisting of the single token
`"25"` does not match the expected format (only one of the two operands is
scanned, as witnessed by the scan count 1), yet the integer target is left
at 25, not at its zero value — operands scanned before the failure keep
their values. -/
theorem userinput.scanf_partial_match_sets_age :
    userinput.scanfCount "25" = 1 ∧
    userinput.scanfCount "25" < 2 ∧
    userinput.scanfTargets "25" = (25, "") ∧
    (userinput.scanfTargets "25").1 ≠ 0 :=
  ⟨rfl, by decide, rfl, by decide⟩

/-- C8 (amended): when the formatted read fails at the first operand, both
targets are left at their zero values, and whenever fewer than two operands
are scanned the text target is left at the empty string; the read is a
total function of the input line, so the routine continues. -/
theorem userinput.scanf_mismatch_zero_values (line : String) :
    (userinput.scanfCount line = 0 →
      userinput.scanfTargets line = (0, "")) ∧
    (userinput.scanfCount line ≤ 1 →
      (userinput.scanfTargets line).2 = "") := by
  unfold userinput.scanfCount userinput.scanfTargets userinput.scanfRun
  dsimp only
  split
  · exact ⟨fun _ => rfl, fun _ => rfl⟩
  · split
    · exact ⟨fun h => absurd h (by simp), fun _ => rfl⟩
    · exact ⟨fun h => absurd h (by simp), fun h => absurd h (by simp)⟩

/-- C8 (witness): instantiation of the amended claim at the fully
mismatching line `"abc"` and at the partially matching line `"25"`. -/
theorem userinput.scanf_mismatch_zero_values_witness :
    userinput.scanfTargets "abc" = (0, "") ∧
    (userinput.scanfTargets "25").2 = "" :=
  ⟨(userinput.scanf_mismatch_zero_values "abc").1 rfl,
   (userinput.scanf_mismatch_zero_values "25").2 (by decide)⟩

/-- C9: for every pair of inputs, `divideTwoNumbers` signals a fault exactly
when the divisor is zero; on the fault path the numeric result is `0`, and
on the non-fault path the fault value is absent and the result is the
quotient of the inputs. -/
theorem underscoreidentifier.divideTwoNumbers_fault_iff (a b : ℚ) :
    ((underscoreidentifier.divideTwoNumbers a b).2 ≠ none ↔ b = 0) ∧
    (b = 0 → underscoreidentifier.divideTwoNumbers a b
      = (0, some "division by zero")) ∧
    (b ≠ 0 → (underscoreidentifier.divideTwoNumbers a b).2 = none ∧
      (underscoreidentifier.divideTwoNumbers a b).1 = a / b) := by
  by_cases hb : b = 0 <;> simp [underscoreidentifier.divideTwoNumbers, hb]

/-- C9 (witness): instantiation at divisor `0` (fault present) and at the
pair `(10, 2)` (no fault, quotient returned). -/
theorem underscoreidentifier.divideTwoNumbers_fault_iff_witness :
    (underscoreidentifier.divideTwoNumbers 10 0).2 ≠ none ∧
    (underscoreidentifier.divideTwoNumbers 10 2).1 = 10 / 2 :=
  ⟨(underscoreidentifier.divideTwoNumbers_fault_iff 10 0).1.2 rfl,
   ((underscoreidentifier.divideTwoNumbers_fault_iff 10 2).2.2
     (by norm_num)).2⟩

/-- C10 (counterexample): on the 64-bit inputs `a = -9223372036854775808`
and `b = -1` (a valid pair with nonzero divisor), Go's wrap-around rule
makes `divideNumbers` return quotient `-9223372036854775808` and remainder
`0`, and the Euclidean identity fails: `q * b + r ≠ a`. -/
theorem functions.divideNumbers_minint_neg_one :
    functions.divideNumbers int64Min (-1) = Except.ok (int64Min, 0) ∧
    int64Min * (-1) + 0 ≠ int64Min :=
  ⟨rfl, by decide⟩

/-- C10 (amended): for every pair of 64-bit integers `(a, b)` with `b ≠ 0`,
other than the single wrap-around pair `(-2^63, -1)`, the routine returns
`(q, r)` with `q * b + r = a` and `|r| < |b|`. -/
theorem functions.divideNumbers_euclidean (a b : Int)
    (ha : inInt64 a) (hb : inInt64 b) (hb0 : b ≠ 0)
    (hedge : ¬(a = int64Min ∧ b = -1)) :
    ∃ q r, functions.divideNumbers a b = Except.ok (q, r) ∧
      q * b + r = a ∧ r.natAbs < b.natAbs := by
  have hbpos : 0 < b.natAbs := Nat.pos_of_ne_zero (Int.natAbs_ne_zero.mpr hb0)
  have hrlt : (a.tmod b).natAbs < b.natAbs := by
    rw [natAbs_tmod_eq]; exact Nat.mod_lt _ hbpos
  have hbA63 : b.natAbs ≤ 9223372036854775808 := by
    unfold inInt64 int64Min int64Max at hb; omega
  have hrin : inInt64 (a.tmod b) := by
    unfold inInt64 int64Min int64Max; omega
  have haA : a.natAbs ≤ 9223372036854775808 := by
    unfold inInt64 int64Min int64Max at ha; omega
  have hqAbs : (a.tdiv b).natAbs = a.natAbs / b.natAbs := Int.natAbs_tdiv a b
  have hqin : inInt64 (a.tdiv b) := by
    rcases Nat.lt_or_ge b.natAbs 2 with h2 | h2
    · have hb1 : b = 1 ∨ b = -1 := by omega
      rcases hb1 with rfl | rfl
      · rw [Int.tdiv_one]; exact ha
      · have hne : a ≠ int64Min := fun h => hedge ⟨h, rfl⟩
        have hden : a.tdiv (-1) = -a := by
          rw [show ((-1 : Int) = -(1 : Int)) from rfl, Int.tdiv_neg,
            Int.tdiv_one]
        rw [hden]
        unfold inInt64 int64Min int64Max at *
        omega
    · have hlt : a.natAbs / b.natAbs < 9223372036854775808 := by
        apply Nat.div_lt_of_lt_mul
        calc a.natAbs ≤ 9223372036854775808 := haA
          _ < 2 * 9223372036854775808 := by omega
          _ ≤ b.natAbs * 9223372036854775808 :=
            Nat.mul_le_mul h2 (Nat.le_refl _)
      have hq63 : (a.tdiv b).natAbs < 9223372036854775808 := by
        rw [hqAbs]; exact hlt
      unfold inInt64 int64Min int64Max
      omega
  refine ⟨goIntDiv a b, goIntMod a b, ?_, ?_, ?_⟩
  · simp [functions.divideNumbers, hb0]
  · unfold goIntDiv goIntMod
    rw [wrap64_eq_self hqin, wrap64_eq_self hrin]
    exact Int.tdiv_add_tmod' a b
  · unfold goIntMod
    rw [wrap64_eq_self hrin]
    exact hrlt

/-- C10 (witness): instantiation of the amended Euclidean property at the
demonstrated input `(17, 5)`. -/
theorem functions.divideNumbers_euclidean_witness :
    ∃ q r, functions.divideNumbers 17 5 = Except.ok (q, r) ∧
      q * 5 + r = 17 ∧ r.natAbs < (5 : Int).natAbs :=
  functions.divideNumbers_euclidean 17 5 (by decide) (by decide)
    (by decide) (by decide)
